import Mathlib

/-!
Verification of the `bdbc-batch-scripts` repository (sanity-check scripts for
NWB session files).  The development shallowly embeds the two Python modules
`bdbc_nwb_tools.py` (extraction layer) and `sanity_check_nwb.py` (reporting
layer): strings are `String`/`List Char`, numpy arrays are Lean lists,
dataframes are association lists from column names to value lists (with
`Option` for NaN/missing), and Python exceptions are an explicit error type
threaded through `Except`.
-/

/-- Kinds of Python exceptions raised by the embedded code.  Messages are not
modelled; the claims only distinguish the kind of error. -/
inductive PyErr where
  | keyError
  | valueError
  | typeError
  | attributeError
deriving DecidableEq, Repr

/-! ## String utilities (CPython semantics)

`str.replace(old, new)` in CPython scans left to right and replaces every
non-overlapping occurrence.  The sanitization in `read_acquisition`
(bdbc_nwb_tools.py line 151) uses three single-character replacements followed
by a replacement of the three-character pattern `"_ds"` by the empty string;
both are embedded below by structural recursion on the character list. -/

/-- CPython `str.replace(c, rep)` for a single-character pattern `c`: each
occurrence of `c` is replaced by `rep`. -/
def replaceChar (c : Char) (rep : List Char) : List Char → List Char
  | [] => []
  | x :: xs => (if x = c then rep else [x]) ++ replaceChar c rep xs

/-- CPython `str.replace("_ds", "")`: a left-to-right scan deleting every
non-overlapping occurrence of the three-character pattern `_ds`, anywhere in
the string (not only as a suffix). -/
def removeDs : List Char → List Char
  | '_' :: 'd' :: 's' :: rest => removeDs rest
  | c :: cs => c :: removeDs cs
  | [] => []

/-- The column-name sanitization of `read_acquisition`
(bdbc_nwb_tools.py line 151):
`name.lower().replace(' ', '_').replace('.', '').replace('-', '_').replace('_ds', '')`. -/
def sanitizeChars (name : List Char) : List Char :=
  removeDs
    (replaceChar '-' ['_']
      (replaceChar '.' []
        (replaceChar ' ' ['_'] (name.map Char.toLower))))

/-- String-level wrapper of `sanitizeChars`. -/
def sanitizeName (name : String) : String :=
  String.mk (sanitizeChars name.toList)

/-- Per-character effect of the three single-character replacements applied in
`read_acquisition`: spaces and hyphens become underscores, periods are
deleted, all other characters are kept. -/
def sanitizeStep (x : Char) : Option Char :=
  if x = ' ' then some '_'
  else if x = '.' then none
  else if x = '-' then some '_'
  else some x

/-! ## Dataframes and per-column statistics (sanity_check_nwb.py)

A dataframe is an association list from column names to columns, where a
column carries its dtype: numeric (values `Option Rat`, a missing value / NaN
being `none`) or boolean (as produced by `read_acquisition`'s coercion of
`reward`/`state_lever`/`tone`, so the non-sensory `daq` table is mixed).

`stat_summary` (sanity_check_nwb.py lines 47-61) runs `tab.describe().T`,
keeps the `mean`/`std`/`min`/`max` columns and appends a per-column
`nan_count` from `tab.isna().sum()`.  Pandas `describe` with the default
`include` summarizes only the numeric (`np.number`) columns when any are
present — bool-dtype columns get no row, and the `nan_count` Series
assignment aligns their entries away.  On a frame with columns but none of
them numeric, `describe` falls back to the categorical statistics
(`count`/`unique`/`top`/`freq`) and the subsequent
`summary[['mean','std','min','max']]` selection raises `KeyError`; on a frame
without columns `describe` raises `ValueError`.  For each numeric column the
statistics are computed over its non-null values (pandas drops NaN first);
that dropping is embedded by `List.filterMap id`.  The `std` entry is
modelled by the sample variance (pandas reports its square root, which is in
general irrational; which input values enter the computation is unchanged). -/

/-- One dataframe column together with its dtype. -/
inductive PdCol where
  | nums (vs : List (Option Rat))
  | bools (bs : List Bool)
deriving DecidableEq

abbrev Table := List (String × PdCol)

abbrev Summary := List (String × List (String × Option Rat))

/-- The numeric (`np.number`) columns of a dataframe, in order — the columns
`describe()` summarizes by default. -/
def numericCols (t : Table) : List (String × List (Option Rat)) :=
  t.filterMap (fun col =>
    match col.2 with
    | .nums vs => some (col.1, vs)
    | .bools _ => none)

def ratSum (xs : List Rat) : Rat := xs.foldl (· + ·) 0

/-- Mean over the non-null values; `NaN` (here `none`) on an empty column,
as pandas reports. -/
def ratMean (xs : List Rat) : Option Rat :=
  if xs.length = 0 then none else some (ratSum xs / (xs.length : Rat))

/-- Sample variance (`ddof = 1`, as pandas `std` uses); `none` for fewer than
two values, where pandas reports NaN. -/
def sampleVarOpt (xs : List Rat) : Option Rat :=
  if xs.length < 2 then none
  else
    match ratMean xs with
    | none => none
    | some m => some (ratSum (xs.map (fun x => (x - m) ^ 2)) / ((xs.length - 1 : Nat) : Rat))

def listMin : List Rat → Option Rat
  | [] => none
  | x :: xs => some (xs.foldl min x)

def listMax : List Rat → Option Rat
  | [] => none
  | x :: xs => some (xs.foldl max x)

/-- One row of the summary table: the retained `describe` statistics computed
over the non-null values, plus `nan_count` from `tab.isna().sum()`. -/
def statRow (vs : List (Option Rat)) : List (String × Option Rat) :=
  [("mean", ratMean (vs.filterMap id)),
   ("std", sampleVarOpt (vs.filterMap id)),
   ("min", listMin (vs.filterMap id)),
   ("max", listMax (vs.filterMap id)),
   ("nan_count", some ((vs.countP (fun v => v.isNone) : Nat) : Rat))]

/-- The summary table built by `stat_summary` on a non-`None` dataframe:
`describe().T` restricted to `mean`/`std`/`min`/`max` plus the aligned
`nan_count` column.  One row per *numeric* source column, in source column
order; bool-dtype columns are excluded by `describe()` and their `nan_count`
entries are aligned away.  A frame with no columns makes `describe` raise
`ValueError`; a frame whose columns are all non-numeric makes the
`[['mean','std','min','max']]` selection raise `KeyError`. -/
def summarizeTable (t : Table) : Except PyErr Summary :=
  if t.isEmpty then .error .valueError
  else if (numericCols t).isEmpty then .error .keyError
  else .ok ((numericCols t).map (fun col => (col.1, statRow col.2)))

/-- First-match association-list lookup (used to state column lookups). -/
def alookup {α : Type} (k : String) : List (String × α) → Option α
  | [] => none
  | p :: rest => if p.1 = k then some p.2 else alookup k rest

/-! ## Session records seen by the reporting layer

`stat_summary` reads the field via `getattr(session, df_name)`; the reporting
layer only ever asks for the six dataframe-valued fields listed in
`sanity_check_nwb` / `plot_summary_within_animal`.  Each is `None` or a
dataframe. -/

structure Session where
  rois : Option Table
  daq : Option Table
  body_video_tracking : Option Table
  face_video_tracking : Option Table
  eye_video_tracking : Option Table
  pupil_tracking : Option Table
deriving DecidableEq

/-- `getattr(session, name)`: `none` means the attribute does not exist
(Python raises `AttributeError`); `some v` is the field's value. -/
def getattrS (s : Session) (name : String) : Option (Option Table) :=
  if name = "rois" then some s.rois
  else if name = "daq" then some s.daq
  else if name = "body_video_tracking" then some s.body_video_tracking
  else if name = "face_video_tracking" then some s.face_video_tracking
  else if name = "eye_video_tracking" then some s.eye_video_tracking
  else if name = "pupil_tracking" then some s.pupil_tracking
  else none

/-- `stat_summary(session, df_name, nwb_path, verbose)`
(sanity_check_nwb.py lines 47-61).  Returns the summary (or `None`) together
with the lines printed to the log stream. -/
def statSummaryR (s : Session) (dfName nwbPath : String) (verbose : Bool) :
    Except PyErr (Option Summary × List String) :=
  match getattrS s dfName with
  | none => .error .attributeError
  | some none =>
      .ok (none, if verbose then ["***no " ++ dfName ++ " found in " ++ nwbPath] else [])
  | some (some tab) =>
      match summarizeTable tab with
      | .error e => .error e
      | .ok sm =>
          .ok (some sm, if verbose then [dfName ++ " summary for " ++ nwbPath] else [])

/-- The field list of `sanity_check_nwb` (lines 31-39). -/
def dfNameList (isSensory : Bool) : List String :=
  if isSensory then ["rois"]
  else ["rois", "daq", "body_video_tracking", "face_video_tracking",
        "eye_video_tracking", "pupil_tracking"]

def renderCell : Option Rat → String
  | none => "NaN"
  | some q => toString q

def renderRow (r : List (String × Option Rat)) : String :=
  r.foldl (fun acc p => acc ++ " " ++ p.1 ++ "=" ++ renderCell p.2) ""

/-- A plain-text rendering standing in for `DataFrame.to_string` (the exact
pandas layout is not modelled; no claim concerns the textual format). -/
def renderSummary (sm : Summary) : String :=
  sm.foldl (fun acc row => acc ++ row.1 ++ renderRow row.2 ++ "\n") ""

/-- The writing loop of `sanity_check_nwb` (lines 41-45): for each field name,
compute `stat_summary`, write the block header, then call
`summary.to_string(...)`.  When the summary is `None` that attribute access
raises `AttributeError` (Python `None` has no `to_string`); on an exception
the partially written file content is not returned. -/
def writeBlocks (s : Session) (nwbPath : String) : List String → String → Except PyErr String
  | [], acc => .ok acc
  | n :: rest, acc =>
      match statSummaryR s n nwbPath true with
      | .error e => .error e
      | .ok (none, _) => .error .attributeError
      | .ok (some sm, _) =>
          writeBlocks s nwbPath rest
            (acc ++ "\n\n\n" ++ n.toUpper ++ " summary\n" ++ renderSummary sm)

/-- The body of `sanity_check_nwb` after the session is loaded: write one
labeled block per field of `df_name_list` to the output file. -/
def sanityCheckWrite (s : Session) (nwbPath : String) (isSensory : Bool) : Except PyErr String :=
  writeBlocks s nwbPath (dfNameList isSensory) ""

/-! ## Cross-session plotting (plot_stats_across_sessions, lines 115-172)

Only the parts the claims are about are embedded: the collection of per-session
summaries (lines 117-124, which appends only non-`None` summaries) and, for a
non-ROI field, the x positions `rowidxx` collected by
`for rowidx, df in enumerate(summarys, start=1)` (lines 162-167). -/

/-- Lines 117-124: `stat_summary` for each session with `verbose=False`
(the path argument is `None`; modelled as the empty string), appending only
the summaries that are not `None`. -/
def collectSummaries (sessions : List Session) (dfName : String) :
    Except PyErr (List Summary) :=
  match sessions with
  | [] => .ok []
  | s :: rest =>
      match statSummaryR s dfName "" false with
      | .error e => .error e
      | .ok (osm, _) =>
          match collectSummaries rest dfName with
          | .error e => .error e
          | .ok tail =>
              .ok (match osm with
                   | some sm => sm :: tail
                   | none => tail)

/-- Lines 162-167: the x positions for one plotted row of a non-ROI field.
The source guards each item with `if df is not None`, but `summarys` holds
only non-`None` summaries (the line-121 filter), so the guard never fails and
every index of `enumerate(summarys, start=1)` is kept. -/
def nonRoiRowIdx (summarys : List Summary) : List Nat :=
  (List.enumFrom 1 summarys).map Prod.fst

/-- The plotted x positions for a non-ROI field across sessions: collect the
surviving summaries, then enumerate them from 1. -/
def plottedPositions (sessions : List Session) (dfName : String) : Except PyErr (List Nat) :=
  match collectSummaries sessions dfName with
  | .error e => .error e
  | .ok summarys => .ok (nonRoiRowIdx summarys)

/-- Modelled from the claim's words (not from the code): the x positions the
claim expects, namely the original index (counted from `start`) of each
session that has the field, with sessions lacking it skipped. -/
def specPositionsFrom (start : Nat) (sessions : List Session) (dfName : String) : List Nat :=
  (List.enumFrom start sessions).filterMap
    (fun p =>
      match getattrS p.2 dfName with
      | some (some _) => some p.1
      | _ => none)

/-- Example session whose `daq` field is present (used by concrete
counterexamples and witnesses). -/
def sessionWithDaq : Session :=
  ⟨none, some [("c", PdCol.nums [some 1])], none, none, none, none⟩

/-- Example session with every field `None`. -/
def sessionEmpty : Session :=
  ⟨none, none, none, none, none, none⟩

/-- Example non-sensory session whose `body_video_tracking` field is `None`
while every other reported field is present. -/
def sessionMissingBody : Session :=
  ⟨some [("a", PdCol.nums [some 1])],
   some [("reward", PdCol.bools [false, true]), ("r", PdCol.nums [some 0, some 2])],
   none,
   some [("x", PdCol.nums [some 1])], some [("x", PdCol.nums [some 1])],
   some [("x", PdCol.nums [some 1])]⟩

/-! ## The NWB container and the extraction layer (bdbc_nwb_tools.py)

The container is modelled by the data the extraction functions actually
access: optional acquisition timestamp streams, the `downsampled` and
`behavior` processing modules (each an ordered dictionary of named data
interfaces), the raw acquisition group, the trial structure, and the
`ophys`/`DfOverF`/`dFF` processed data product.  An absent entry is `none`;
the corresponding `pynwb` accessor raises on it. -/

/-- `pat.isPrefixOf l` on character lists. -/
def isPrefixList : List Char → List Char → Bool
  | [], _ => true
  | _ :: _, [] => false
  | a :: as, b :: bs => a == b && isPrefixList as bs

/-- Python's substring test `pat in l`. -/
def containsSub (pat : List Char) : List Char → Bool
  | [] => pat.isEmpty
  | c :: cs => isPrefixList pat (c :: cs) || containsSub pat cs

/-- Column data of the acquisition table: numeric channels, or channels
coerced to boolean by the non-sensory conversion. -/
inductive ColData where
  | ints (xs : List Int)
  | bools (bs : List Bool)
deriving DecidableEq

/-- Contents of one named data interface inside a processing module or the
acquisition group. -/
inductive IfaceContent where
  | plainData (xs : List Int)
  | keypoints (series : List (String × List (Rat × Rat) × List Rat))
  | tsGroup (series : List (String × List Rat))
  | trialsTable (t : Table)
deriving DecidableEq

structure ProcModule where
  ifaces : List (String × IfaceContent)
deriving DecidableEq

/-- The `ophys`/`DfOverF`/`dFF` roi response series: data stored
column-major together with the parallel `roi_name` and `roi_description`
arrays of its roi table. -/
structure DffEntry where
  cols : List (List Rat)
  names : List String
  descs : List String
deriving DecidableEq

/-- The seven scalar metadata fields read by `read_metadata`
(bdbc_nwb_tools.py lines 80-90), after date formatting. -/
structure Metadata where
  session_id : String
  session_description : String
  session_notes : String
  subject_id : String
  subject_DoB : String
  subject_age : String
  subject_sex : String
deriving DecidableEq

structure NWBContainer where
  metadata : Option Metadata
  widefield : Option (List Rat)
  humidity : Option (List Rat)
  bodyVideoTs : Option (List Rat)
  hasTrials : Bool
  rawTrials : Option Table
  downsampledMod : Option ProcModule
  behaviorMod : Option ProcModule
  acquisitionMod : ProcModule
  ophysDff : Option DffEntry
deriving DecidableEq

/-- `read_metadata` (lines 80-90): fails when the required subject fields are
absent, otherwise returns the metadata record. -/
def read_metadata (c : NWBContainer) : Except PyErr Metadata :=
  match c.metadata with
  | none => .error .attributeError
  | some m => .ok m

/-- Result of `read_timebases`: either the imaging timestamp array alone
(downsampled) or the record of the three streams. -/
inductive TimebaseVal where
  | arr (imaging : List Rat)
  | recTb (daq imaging : List Rat) (videos : Option (List Rat))
deriving DecidableEq

/-- `read_timebases` (lines 93-110): always reads the `widefield_blue`
timestamps; when not downsampled additionally reads `Humidity_raw` and the
optional `body_video` stream. -/
def read_timebases (c : NWBContainer) (downsampled : Bool) : Except PyErr TimebaseVal :=
  match c.widefield with
  | none => .error .keyError
  | some imaging =>
      if downsampled then .ok (.arr imaging)
      else
        match c.humidity with
        | none => .error .keyError
        | some daq => .ok (.recTb daq imaging c.bodyVideoTs)

/-- `read_roi_dFF` (lines 113-120): raises when the
`ophys`/`DfOverF`/`dFF` product is absent; otherwise returns the wide roi
table (columns keyed by roi name) and the name-to-description mapping. -/
def read_roi_dFF (c : NWBContainer) : Except PyErr (Table × List (String × String)) :=
  match c.ophysDff with
  | none => .error .keyError
  | some e =>
      .ok (e.names.zip (e.cols.map (fun col => PdCol.nums (col.map some))), e.names.zip e.descs)

/-- `read_trials` (lines 123-135): `None` when the file has no trial
structure; otherwise the downsampled processed trial table or the raw
time-interval table. -/
def read_trials (c : NWBContainer) (downsampled : Bool) : Except PyErr (Option Table) :=
  if !c.hasTrials then .ok none
  else if downsampled then
    match c.downsampledMod with
    | none => .error .keyError
    | some m =>
        match alookup "trials" m.ifaces with
        | some (.trialsTable t) => .ok (some t)
        | some _ => .error .attributeError
        | none => .error .keyError
  else
    match c.rawTrials with
    | none => .error .keyError
    | some t => .ok (some t)

/-- The parent group enumerated by `read_acquisition` (lines 143-146): the
`downsampled` processing module, or the raw acquisition group. -/
def acqParent (c : NWBContainer) (downsampled : Bool) : Except PyErr ProcModule :=
  if downsampled then
    match c.downsampledMod with
    | none => .error .keyError
    | some m => .ok m
  else .ok c.acquisitionMod

/-- The exclusion test of `read_acquisition` line 149: skip any product whose
name contains `video_keypoints` or is one of `eye_position`,
`pupil_tracking`, `trials`. -/
def keepAcqName (name : String) : Bool :=
  !(containsSub "video_keypoints".toList name.toList ||
    ["eye_position", "pupil_tracking", "trials"].contains name)

/-- Python dict assignment `d[k] = v`: overwrite in place when the key
exists, append otherwise. -/
def dictInsert {α : Type} (d : List (String × α)) (k : String) (v : α) : List (String × α) :=
  if d.any (fun p => p.1 == k) then
    d.map (fun p => if p.1 == k then (k, v) else p)
  else d ++ [(k, v)]

/-- Python dict value overwrite of an existing key (used by the coercion
loops, which only assign to keys they just read). -/
def updateVal {α : Type} (d : List (String × α)) (k : String) (v : α) : List (String × α) :=
  d.map (fun p => if p.1 == k then (k, v) else p)

/-- The collection loop of `read_acquisition` (lines 147-152): iterate the
named data interfaces in order, skip the excluded names, and store each kept
product's data under its sanitized column name.  A kept interface that is not
a plain timeseries has no `.data` and raises. -/
def buildAcqDataGo (acc : List (String × List Int)) :
    List (String × IfaceContent) → Except PyErr (List (String × List Int))
  | [] => .ok acc
  | (name, content) :: rest =>
      if keepAcqName name then
        match content with
        | .plainData xs => buildAcqDataGo (dictInsert acc (sanitizeName name) xs) rest
        | _ => .error .attributeError
      else buildAcqDataGo acc rest

def buildAcqData (m : ProcModule) : Except PyErr (List (String × List Int)) :=
  buildAcqDataGo [] m.ifaces

/-- numpy `int16` cast: wrap into the signed 16-bit range. -/
def toInt16 (x : Int) : Int := ((x + 32768) % 65536) - 32768

/-- `data[column] = (data[column] > 0)` (line 157): a missing column raises
`KeyError`; numpy `> 0` on an integer array compares elementwise, and on an
already-boolean array returns the array unchanged. -/
def coerceBoolCol (d : List (String × ColData)) (k : String) :
    Except PyErr (List (String × ColData)) :=
  match alookup k d with
  | none => .error .keyError
  | some (.ints xs) => .ok (updateVal d k (ColData.bools (xs.map (fun x => decide (0 < x)))))
  | some (.bools bs) => .ok (updateVal d k (ColData.bools bs))

/-- `data[column] = data[column].astype(np.int16)` (line 159): a missing
column raises `KeyError`; integers wrap into 16-bit range, booleans become
0/1. -/
def coerceInt16Col (d : List (String × ColData)) (k : String) :
    Except PyErr (List (String × ColData)) :=
  match alookup k d with
  | none => .error .keyError
  | some (.ints xs) => .ok (updateVal d k (ColData.ints (xs.map toInt16)))
  | some (.bools bs) => .ok (updateVal d k (ColData.ints (bs.map (fun b => if b then 1 else 0))))

/-- The data-type conversion block of `read_acquisition` (lines 154-159),
with the two loops over the fixed column tuples unrolled. -/
def coerceAcq (d : List (String × ColData)) : Except PyErr (List (String × ColData)) := do
  let d2 ← coerceBoolCol d "reward"
  let d3 ← coerceBoolCol d2 "state_lever"
  let d4 ← coerceBoolCol d3 "tone"
  coerceInt16Col d4 "state_task"

/-- `read_acquisition` (lines 138-161): collect and sanitize the channel
columns, then — only for non-sensory sessions — coerce `reward`,
`state_lever`, `tone` to boolean via `> 0` and cast `state_task` to `int16`. -/
def read_acquisition (c : NWBContainer) (downsampled isSensory : Bool) :
    Except PyErr (List (String × ColData)) := do
  let parent ← acqParent c downsampled
  let data0 ← buildAcqData parent
  let data1 := data0.map (fun p => (p.1, ColData.ints p.2))
  if isSensory then
    return data1
  else
    coerceAcq data1

/-- Column keys of a tracking dataframe: Python uses tuple keys
`(keypoint, coordinate)` for keypoint views and string keys for the pupil
view. -/
inductive ColKey where
  | str (s : String)
  | pair (kpt coord : String)
deriving DecidableEq

abbrev Frame := List (ColKey × List Rat)

/-- The processing module used by `read_video_tracking`
(lines 171-174 and 186-189): `downsampled`, or `behavior` for raw data. -/
def moduleFor (c : NWBContainer) (downsampled : Bool) : Option ProcModule :=
  if downsampled then c.downsampledMod else c.behaviorMod

/-- The per-keypoint column extraction of `read_video_tracking`
(lines 179-184): x and y columns for every keypoint, plus a likelihood
column when not downsampled. -/
def keypointCols (downsampled : Bool) :
    List (String × List (Rat × Rat) × List Rat) → Frame
  | [] => []
  | (kpt, xy, conf) :: rest =>
      [(ColKey.pair kpt "x", xy.map Prod.fst), (ColKey.pair kpt "y", xy.map Prod.snd)] ++
      (if downsampled then [] else [(ColKey.pair kpt "likelihood", conf)]) ++
      keypointCols downsampled rest

/-- `read_video_tracking` (lines 164-198).  For the keypoint views the named
keypoint product being absent yields `None`; for the pupil view the absence
of `pupil_tracking` yields `None` (but a present `pupil_tracking` with a
missing `eye_position` raises, as `get_data_interface` does); any other view
name raises `ValueError` before the container is touched. -/
def read_video_tracking (c : NWBContainer) (view : String) (downsampled : Bool) :
    Except PyErr (Option Frame) :=
  if view = "body" ∨ view = "face" ∨ view = "eye" then
    match moduleFor c downsampled with
    | none => .error .keyError
    | some parent =>
        match alookup (view ++ "_video_keypoints") parent.ifaces with
        | none => .ok none
        | some (.keypoints series) => .ok (some (keypointCols downsampled series))
        | some _ => .error .attributeError
  else if view = "pupil" then
    match moduleFor c downsampled with
    | none => .error .keyError
    | some parent =>
        match alookup "pupil_tracking" parent.ifaces with
        | none => .ok none
        | some (.tsGroup pt) =>
            (match alookup "eye_position" parent.ifaces with
             | some (.tsGroup ep) =>
                 (match alookup "diameter" pt, alookup "center_x" ep, alookup "center_y" ep with
                  | some dia, some cx, some cy =>
                      .ok (some [(ColKey.str "diameter", dia), (ColKey.str "center_x", cx),
                                 (ColKey.str "center_y", cy)])
                  | _, _, _ => .error .keyError)
             | some _ => .error .attributeError
             | none => .error .keyError)
        | some _ => .error .attributeError
  else .error .valueError

/-- The values stored in the `data` dict assembled by `load_from_file`
(lines 209-219); Python holds them untyped, so the dict value type is a sum
of everything the reads produce. -/
inductive FieldValue where
  | meta (m : Metadata)
  | tb (t : TimebaseVal)
  | optTable (t : Option Table)
  | acq (d : List (String × ColData))
  | vframe (f : Option Frame)
  | roiTable (t : Table)
  | roiDescs (d : List (String × String))
deriving DecidableEq

/-- The `NWBData` namedtuple (lines 39-51). -/
structure NWBDataFull where
  metadata : FieldValue
  timebase : FieldValue
  trials : FieldValue
  daq : FieldValue
  body_video_tracking : FieldValue
  face_video_tracking : FieldValue
  eye_video_tracking : FieldValue
  pupil_tracking : FieldValue
  rois : FieldValue
  roi_description : FieldValue
deriving DecidableEq

/-- The `NWBData_resting` namedtuple (lines 54-65): no `trials` field. -/
structure NWBDataResting where
  metadata : FieldValue
  timebase : FieldValue
  daq : FieldValue
  body_video_tracking : FieldValue
  face_video_tracking : FieldValue
  eye_video_tracking : FieldValue
  pupil_tracking : FieldValue
  rois : FieldValue
  roi_description : FieldValue
deriving DecidableEq

/-- The `NWBData_sensory` namedtuple (lines 68-75). -/
structure NWBDataSensory where
  metadata : FieldValue
  timebase : FieldValue
  trials : FieldValue
  rois : FieldValue
  roi_description : FieldValue
deriving DecidableEq

inductive SessionRecord where
  | full (r : NWBDataFull)
  | resting (r : NWBDataResting)
  | sensory (r : NWBDataSensory)
deriving DecidableEq

def restingFields : List String :=
  ["metadata", "timebase", "daq", "body_video_tracking", "face_video_tracking",
   "eye_video_tracking", "pupil_tracking", "rois", "roi_description"]

def fullFields : List String :=
  ["metadata", "timebase", "trials", "daq", "body_video_tracking", "face_video_tracking",
   "eye_video_tracking", "pupil_tracking", "rois", "roi_description"]

def sensoryFields : List String :=
  ["metadata", "timebase", "trials", "rois", "roi_description"]

/-- `NWBData_resting(**data)`: raises `TypeError` when `data` has an
unexpected key or is missing a field. -/
def mkResting (data : List (String × FieldValue)) : Except PyErr NWBDataResting :=
  if data.any (fun p => !(restingFields.contains p.1)) then .error .typeError
  else
    match alookup "metadata" data, alookup "timebase" data, alookup "daq" data,
          alookup "body_video_tracking" data, alookup "face_video_tracking" data,
          alookup "eye_video_tracking" data, alookup "pupil_tracking" data,
          alookup "rois" data, alookup "roi_description" data with
    | some f1, some f2, some f3, some f4, some f5, some f6, some f7, some f8, some f9 =>
        .ok ⟨f1, f2, f3, f4, f5, f6, f7, f8, f9⟩
    | _, _, _, _, _, _, _, _, _ => .error .typeError

/-- `NWBData(**data)`: raises `TypeError` when `data` has an unexpected key
or is missing a field. -/
def mkFull (data : List (String × FieldValue)) : Except PyErr NWBDataFull :=
  if data.any (fun p => !(fullFields.contains p.1)) then .error .typeError
  else
    match alookup "metadata" data, alookup "timebase" data, alookup "trials" data,
          alookup "daq" data, alookup "body_video_tracking" data,
          alookup "face_video_tracking" data, alookup "eye_video_tracking" data,
          alookup "pupil_tracking" data, alookup "rois" data,
          alookup "roi_description" data with
    | some f1, some f2, some f3, some f4, some f5, some f6, some f7, some f8, some f9,
      some f10 => .ok ⟨f1, f2, f3, f4, f5, f6, f7, f8, f9, f10⟩
    | _, _, _, _, _, _, _, _, _, _ => .error .typeError

/-- `NWBData_sensory(**data)`: raises `TypeError` when `data` has an
unexpected key or is missing a field. -/
def mkSensory (data : List (String × FieldValue)) : Except PyErr NWBDataSensory :=
  if data.any (fun p => !(sensoryFields.contains p.1)) then .error .typeError
  else
    match alookup "metadata" data, alookup "timebase" data, alookup "trials" data,
          alookup "rois" data, alookup "roi_description" data with
    | some f1, some f2, some f3, some f4, some f5 => .ok ⟨f1, f2, f3, f4, f5⟩
    | _, _, _, _, _ => .error .typeError

/-- The body of the `with` block of `load_from_file` (lines 207-219): the
reads in source order, assembling the `data` dict; the trials read is skipped
for resting sessions and the acquisition/video/pupil reads for sensory
sessions. -/
def loadTrialsPart (c : NWBContainer) (downsampled isResting : Bool)
    (d0 : List (String × FieldValue)) : Except PyErr (List (String × FieldValue)) :=
  if isResting then pure d0
  else do
    let t ← read_trials c downsampled
    pure (d0 ++ [("trials", FieldValue.optTable t)])

def loadAcqPart (c : NWBContainer) (downsampled isSensory : Bool)
    (d1 : List (String × FieldValue)) : Except PyErr (List (String × FieldValue)) :=
  if isSensory then pure d1
  else do
    let daqv ← read_acquisition c downsampled false
    let bv ← read_video_tracking c "body" downsampled
    let fv ← read_video_tracking c "face" downsampled
    let ev ← read_video_tracking c "eye" downsampled
    let pv ← read_video_tracking c "pupil" downsampled
    pure (d1 ++ [("daq", FieldValue.acq daqv),
                 ("body_video_tracking", FieldValue.vframe bv),
                 ("face_video_tracking", FieldValue.vframe fv),
                 ("eye_video_tracking", FieldValue.vframe ev),
                 ("pupil_tracking", FieldValue.vframe pv)])

def load_body (c : NWBContainer) (downsampled isResting isSensory : Bool) :
    Except PyErr (List (String × FieldValue)) := do
  let md ← read_metadata c
  let tbv ← read_timebases c downsampled
  let d1 ← loadTrialsPart c downsampled isResting
    [("metadata", .meta md), ("timebase", .tb tbv)]
  let d2 ← loadAcqPart c downsampled isSensory d1
  let rd ← read_roi_dFF c
  pure (d2 ++ [("rois", FieldValue.roiTable rd.1), ("roi_description", FieldValue.roiDescs rd.2)])

/-- `load_from_file` (lines 201-224).  The `with` statement closes the file
handle on the normal and the exceptional exit alike; the boolean component
records that the handle is closed when the call returns.  The record is
assembled after the block, in the shape selected by the flags with
`isResting` checked first. -/
def load_from_file (c : NWBContainer) (downsampled isResting isSensory : Bool) :
    Except PyErr SessionRecord × Bool :=
  match load_body c downsampled isResting isSensory with
  | .error e => (.error e, true)
  | .ok data =>
      (if isResting then (mkResting data).map SessionRecord.resting
       else if isSensory then (mkSensory data).map SessionRecord.sensory
       else (mkFull data).map SessionRecord.full, true)

/-! ## The filename convention (sanity_check_nwb.py lines 11-12 and 64-68)

`file_matcher` is the Python regex
`([a-zA-Z0-9-]+)_([0-9-]+)_(task|resting-state|sensory-stim)-day([0-9]+)`,
applied with `re.match` (anchored at the start, trailing characters allowed)
to `filepath.stem`.  The embedding below is a direct matcher whose maximal
munch behaviour coincides with the regex engine's greedy backtracking:
neither character class contains `_`, so each of the first two groups must
end exactly where its maximal run does (shortening it can never expose the
required `_`); the three literal alternatives start with distinct characters,
so at most one can apply at a given position; and nothing after the final
digit group is required, so its maximal run is the greedy match. -/

def cls1 (c : Char) : Bool := c.isAlphanum || c = '-'

def cls2 (c : Char) : Bool := c.isDigit || c = '-'

def typeAlternatives : List (List Char) :=
  ["task".toList, "resting-state".toList, "sensory-stim".toList]

/-- Ordered alternation of literal alternatives. -/
def tryAlts : List (List Char) → List Char → Option (List Char × List Char)
  | [], _ => none
  | alt :: rest, l =>
      if isPrefixList alt l then some (alt, l.drop alt.length) else tryAlts rest l

/-- `file_matcher.match(stem)`, returning the four captured groups. -/
def pyMatch (stem : List Char) : Option (List Char × List Char × List Char × List Char) :=
  let g1 := stem.takeWhile cls1
  let r1 := stem.dropWhile cls1
  if g1.isEmpty then none
  else
    match r1 with
    | '_' :: r1tl =>
        let g2 := r1tl.takeWhile cls2
        let r2 := r1tl.dropWhile cls2
        if g2.isEmpty then none
        else
          match r2 with
          | '_' :: r2tl =>
              match tryAlts typeAlternatives r2tl with
              | none => none
              | some (g3, r3) =>
                  if isPrefixList ['-', 'd', 'a', 'y'] r3 then
                    let g4 := (r3.drop 4).takeWhile Char.isDigit
                    if g4.isEmpty then none else some (g1, g2, g3, g4)
                  else none
          | _ => none
    | _ => none

/-- CPython `Path.stem`: the name without its last suffix, where a suffix is
a dot segment with `0 < i < len - 1` for the dot position (so leading-dot
names and trailing dots have no suffix).  The claims pass plain file names,
so the directory part is not modelled. -/
def pyStem (s : String) : String :=
  let cs := s.toList
  let n := cs.length
  match ((List.range n).filter (fun i => cs.getD i ' ' = '.')).getLast? with
  | some i => if 0 < i ∧ i < n - 1 then String.mk (cs.take i) else s
  | none => s

def typeIndexerList : List String := ["task", "resting-state", "sensory-stim"]

/-- Python `list.index`: position of the first occurrence, `ValueError` when
absent. -/
def listIndex : List String → String → Except PyErr Nat
  | [], _ => .error .valueError
  | x :: rest, y => if x = y then .ok 0 else (listIndex rest y).map (· + 1)

/-- Python `int` on a non-empty digit string. -/
def digitsToNat (g : List Char) : Nat :=
  g.foldl (fun a c => a * 10 + (c.toNat - '0'.toNat)) 0

/-- `nwb_file_indexer` (lines 64-68): match the stem against the convention,
raise `ValueError` on failure, and return
`(subject, date, session-type rank, day number)`. -/
def nwb_file_indexer (filename : String) : Except PyErr (String × String × Nat × Nat) :=
  match pyMatch (pyStem filename).toList with
  | none => .error .valueError
  | some (g1, g2, g3, g4) =>
      match listIndex typeIndexerList (String.mk g3) with
      | .error e => .error e
      | .ok i => .ok (String.mk g1, String.mk g2, i, digitsToNat g4)

/-- Example processing module with no data interfaces. -/
def moduleEmpty : ProcModule := ⟨[]⟩

/-- Example container whose processing modules are present but empty, and
whose `ophys`/`DfOverF` product is absent. -/
def containerEmptyMod : NWBContainer :=
  ⟨none, none, none, none, false, none, some moduleEmpty, some moduleEmpty, moduleEmpty, none⟩

def metaEx : Metadata := ⟨"s1", "desc", "notes", "m01", "2021-01-01", "P60D", "F"⟩

def dffEx : DffEntry := ⟨[[1, 2]], ["roi1"], ["desc1"]⟩

/-- Example container on which `load_from_file` with both flags set reaches
record construction: metadata, imaging timestamps and the roi product are
present; everything else is skipped under the two flags. -/
def containerForLoad : NWBContainer :=
  ⟨some metaEx, some [0], none, none, false, none, some moduleEmpty, some moduleEmpty,
   moduleEmpty, some dffEx⟩

/-- Example `downsampled` module for `read_acquisition`: four channels that
sanitize to the coerced column names, plus one further channel. -/
def acqModuleEx : ProcModule := ⟨[
  ("Reward_ds", IfaceContent.plainData [0, 2]),
  ("State_lever_ds", IfaceContent.plainData [1, 0]),
  ("Tone_ds", IfaceContent.plainData [-1, 3]),
  ("State_task_ds", IfaceContent.plainData [1, 70000]),
  ("Running-speed_ds", IfaceContent.plainData [5, 5])]⟩

def containerAcq : NWBContainer :=
  ⟨some metaEx, some [0], none, none, false, none, some acqModuleEx, none, moduleEmpty, none⟩

/-! # Theorems -/

theorem replaceChar_eq_filterMap (c : Char) (rep : List Char) (l : List Char) :
    replaceChar c rep l = l.flatMap (fun x => if x = c then rep else [x]) := by
  induction l with
  | nil => rfl
  | cons x xs ih => simp [replaceChar, List.flatMap_cons, ih]

theorem sanitizeChars_eq (name : List Char) :
    sanitizeChars name = removeDs ((name.map Char.toLower).filterMap sanitizeStep) := by
  unfold sanitizeChars
  congr 1
  induction name.map Char.toLower with
  | nil => rfl
  | cons y l ih =>
      by_cases h1 : y = ' '
      · subst h1
        simp [replaceChar, List.filterMap_cons, sanitizeStep, ih]
      · by_cases h2 : y = '.'
        · subst h2
          simp [replaceChar, List.filterMap_cons, sanitizeStep, ih]
        · by_cases h3 : y = '-'
          · subst h3
            simp [replaceChar, List.filterMap_cons, sanitizeStep, ih]
          · simp [replaceChar, List.filterMap_cons, sanitizeStep, h1, h2, h3, ih]

/-- C1 (counterexample): the claim states that `'Running-speed_ds'` sanitizes
to `'runningspeed'` (spaces and hyphens deleted) and that `'_ds'` is removed
only as a suffix.  The code instead yields `'running_speed'` (hyphen replaced
by an underscore), and removes `'_ds'` also mid-name: `'A_dsB'` yields
`'ab'`, not `'a_dsb'`. -/
theorem C1_counterexample :
    sanitizeName "Running-speed_ds" = "running_speed" ∧
    sanitizeName "Running-speed_ds" ≠ "runningspeed" ∧
    sanitizeName "A_dsB" = "ab" ∧
    sanitizeName "A_dsB" ≠ "a_dsb" := by
  refine ⟨by decide, by decide, by decide, by decide⟩

/-- C1 (amended): for every acquisition name kept by `read_acquisition`, the
column identifier is the name lower-cased, with each space and each hyphen
replaced by an underscore, each period deleted, and then every occurrence of
the substring `"_ds"` (not only a trailing one) deleted; in particular
`'Running-speed_ds'` yields `'running_speed'`. -/
theorem C1_amended_sanitize :
    (∀ name : List Char,
        sanitizeChars name = removeDs ((name.map Char.toLower).filterMap sanitizeStep)) ∧
    sanitizeName "Running-speed_ds" = "running_speed" := by
  exact ⟨sanitizeChars_eq, by decide⟩

theorem enumFrom_map_fst {α : Type} (n : Nat) (l : List α) :
    (List.enumFrom n l).map Prod.fst = List.range' n l.length := by
  induction l generalizing n with
  | nil => rfl
  | cons x xs ih => simp [List.enumFrom, List.range', ih]

theorem alookup_eq_none_of_not_mem {α : Type} (c : String) (d : List (String × α))
    (h : c ∉ d.map Prod.fst) : alookup c d = none := by
  induction d with
  | nil => rfl
  | cons p rest ih =>
      simp only [List.map_cons, List.mem_cons, not_or] at h
      have hne : p.1 ≠ c := fun hEq => h.1 hEq.symm
      simp [alookup, hne, ih h.2]

theorem numericCols_names_mem (x : String) (t : Table)
    (h : x ∈ (numericCols t).map Prod.fst) : x ∈ t.map Prod.fst := by
  induction t with
  | nil => exact absurd h (by simp [numericCols])
  | cons p rest ih =>
      obtain ⟨pn, pc⟩ := p
      cases pc with
      | nums vs =>
          simp only [numericCols, List.filterMap_cons, List.map_cons, List.mem_cons] at h ⊢
          rcases h with h | h
          · exact Or.inl h
          · exact Or.inr (ih (by simpa [numericCols] using h))
      | bools bs =>
          simp only [numericCols, List.filterMap_cons, List.map_cons, List.mem_cons] at h ⊢
          exact Or.inr (ih (by simpa [numericCols] using h))

theorem alookup_summarize_nums (t : Table) (hnd : (t.map Prod.fst).Nodup)
    (c : String) (vs : List (Option Rat)) (hmem : (c, PdCol.nums vs) ∈ t) :
    alookup c ((numericCols t).map (fun col => (col.1, statRow col.2))) = some (statRow vs) := by
  induction t with
  | nil => cases hmem
  | cons p rest ih =>
      obtain ⟨pn, pc⟩ := p
      simp only [List.map_cons, List.nodup_cons] at hnd
      rcases List.mem_cons.mp hmem with h | h
      · cases h
        simp [numericCols, List.filterMap_cons, alookup]
      · have hcn : c ∈ rest.map Prod.fst := List.mem_map.mpr ⟨(c, .nums vs), h, rfl⟩
        have hne : pn ≠ c := fun hEq => hnd.1 (hEq ▸ hcn)
        cases pc with
        | nums vs2 =>
            simp only [numericCols, List.filterMap_cons, List.map_cons]
            simpa [alookup, hne, numericCols] using ih hnd.2 h
        | bools bs2 =>
            simp only [numericCols, List.filterMap_cons]
            simpa [numericCols] using ih hnd.2 h

theorem alookup_summarize_bools (t : Table) (hnd : (t.map Prod.fst).Nodup)
    (c : String) (bs : List Bool) (hmem : (c, PdCol.bools bs) ∈ t) :
    alookup c ((numericCols t).map (fun col => (col.1, statRow col.2))) = none := by
  induction t with
  | nil => cases hmem
  | cons p rest ih =>
      obtain ⟨pn, pc⟩ := p
      simp only [List.map_cons, List.nodup_cons] at hnd
      rcases List.mem_cons.mp hmem with h | h
      · cases h
        have hnotin : c ∉ (numericCols rest).map Prod.fst :=
          fun hx => hnd.1 (numericCols_names_mem c rest hx)
        simp only [numericCols, List.filterMap_cons]
        refine alookup_eq_none_of_not_mem c _ ?_
        simpa [numericCols] using hnotin
      · have hcn : c ∈ rest.map Prod.fst := List.mem_map.mpr ⟨(c, .bools bs), h, rfl⟩
        have hne : pn ≠ c := fun hEq => hnd.1 (hEq ▸ hcn)
        cases pc with
        | nums vs2 =>
            simp only [numericCols, List.filterMap_cons, List.map_cons]
            simpa [alookup, hne, numericCols] using ih hnd.2 h
        | bools bs2 =>
            simp only [numericCols, List.filterMap_cons]
            simpa [numericCols] using ih hnd.2 h

/-- C6 (counterexample): on a session whose `daq` table is the mixed frame
produced by the non-sensory acquisition path — a bool-coerced `reward` column
next to a numeric `state_task` column — `stat_summary` returns a summary with
a row only for `state_task`: `describe()` excludes the bool-dtype column, so
the summary does not have one row per source column. -/
theorem C6_counterexample :
    statSummaryR
      ⟨none, some [("reward", PdCol.bools [true, false]),
                   ("state_task", PdCol.nums [some 1, some 2])], none, none, none, none⟩
      "daq" "p.nwb" false =
      Except.ok (some [("state_task", statRow [some 1, some 2])], []) ∧
    [("state_task", statRow [some 1, some 2])].map Prod.fst ≠
      ([("reward", PdCol.bools [true, false]),
        ("state_task", PdCol.nums [some 1, some 2])] : Table).map Prod.fst := by
  exact ⟨rfl, by decide⟩

/-- C6 (amended): for any non-`None` table field with at least one numeric
column, `stat_summary` returns a table with one row per *numeric* source
column, in source order; bool-dtype columns (such as the coerced
`reward`/`state_lever`/`tone` of a non-sensory `daq` table) are excluded by
`describe()` and get no row.  Each row has exactly the entries
`mean, std, min, max, nan_count`; `nan_count` is the number of missing values
of the column, and the other statistics are computed over the column with the
missing values dropped (`filterMap id`). -/
theorem C6_stat_summary_numeric_columns (t : Table)
    (hne : t ≠ []) (hnum : numericCols t ≠ []) (hnd : (t.map Prod.fst).Nodup) :
    ∃ sm, summarizeTable t = Except.ok sm ∧
      sm.map Prod.fst = (numericCols t).map Prod.fst ∧
      (∀ c vs, (c, PdCol.nums vs) ∈ t →
        alookup c sm =
          some [("mean", ratMean (vs.filterMap id)),
                ("std", sampleVarOpt (vs.filterMap id)),
                ("min", listMin (vs.filterMap id)),
                ("max", listMax (vs.filterMap id)),
                ("nan_count", some ((vs.countP (fun v => v.isNone) : Nat) : Rat))]) ∧
      (∀ c bs, (c, PdCol.bools bs) ∈ t → alookup c sm = none) := by
  refine ⟨(numericCols t).map (fun col => (col.1, statRow col.2)), ?_, ?_, ?_, ?_⟩
  · simp [summarizeTable, hne, hnum]
  · simp
  · intro c vs hmem
    rw [alookup_summarize_nums t hnd c vs hmem]
    rfl
  · intro c bs hmem
    exact alookup_summarize_bools t hnd c bs hmem

/-- C6 witness: a mixed table with a bool `reward` column and a numeric
`state_task` column holding one missing value; the summary has a row for the
numeric column only, and that row reports `nan_count = 1` and statistics over
the two non-null values (`mean = 2`, sample variance `2`, `min = 1`,
`max = 3`). -/
theorem C6_stat_summary_numeric_columns_witness :
    ∃ sm, summarizeTable [("reward", PdCol.bools [true, false]),
        ("state_task", PdCol.nums [some 1, none, some 3])] = Except.ok sm ∧
      alookup "state_task" sm =
        some [("mean", some 2), ("std", some 2), ("min", some 1), ("max", some 3),
              ("nan_count", some 1)] ∧
      alookup "reward" sm = none := by
  obtain ⟨sm, h1, h2, h3, h4⟩ := C6_stat_summary_numeric_columns
    [("reward", PdCol.bools [true, false]), ("state_task", PdCol.nums [some 1, none, some 3])]
    (by decide) (by decide) (by decide)
  refine ⟨sm, h1, ?_, h4 "reward" [true, false] (by decide)⟩
  rw [h3 "state_task" [some 1, none, some 3] (by decide)]
  simp only [List.filterMap_cons, List.filterMap_nil, id]
  norm_num [ratMean, ratSum, sampleVarOpt, listMin, listMax, List.countP_cons]

/-- C9: for every session record and field name whose value in the record is
`None`, `stat_summary` returns `None` (with a log line when verbose) and does
not raise. -/
theorem C9_stat_summary_none (s : Session) (dfName nwbPath : String) (verbose : Bool)
    (h : getattrS s dfName = some none) :
    ∃ logs, statSummaryR s dfName nwbPath verbose = Except.ok (none, logs) := by
  refine ⟨if verbose then ["***no " ++ dfName ++ " found in " ++ nwbPath] else [], ?_⟩
  simp [statSummaryR, h]

/-- C9 witness: a concrete all-`None` session and the `daq` field. -/
theorem C9_stat_summary_none_witness :
    ∃ logs, statSummaryR sessionEmpty "daq" "p.nwb" true = Except.ok (none, logs) :=
  C9_stat_summary_none sessionEmpty "daq" "p.nwb" true (by decide)

theorem writeBlocks_cons_some (s : Session) (p n : String) (rest : List String) (acc : String)
    (tab : Table) (sm : Summary) (h : getattrS s n = some (some tab))
    (hsm : summarizeTable tab = Except.ok sm) :
    writeBlocks s p (n :: rest) acc =
      writeBlocks s p rest
        (acc ++ "\n\n\n" ++ n.toUpper ++ " summary\n" ++ renderSummary sm) := by
  simp [writeBlocks, statSummaryR, h, hsm]

theorem writeBlocks_cons_none (s : Session) (p n : String) (rest : List String) (acc : String)
    (h : getattrS s n = some none) :
    writeBlocks s p (n :: rest) acc = Except.error PyErr.attributeError := by
  simp [writeBlocks, statSummaryR, h]

/-- C3 (code-bug evidence): on a non-sensory session whose
`body_video_tracking` field is `None`, `stat_summary` does log the absence and
return `None`, but the writing loop of `sanity_check_nwb` then calls
`summary.to_string(...)` on that `None` and raises `AttributeError`; the
output file is not completed with the remaining blocks, contrary to the claim
that the block is merely omitted. -/
theorem C3_missing_field_raises :
    sanityCheckWrite sessionMissingBody "sess.nwb" false = Except.error PyErr.attributeError ∧
    statSummaryR sessionMissingBody "body_video_tracking" "sess.nwb" true =
      Except.ok (none, ["***no body_video_tracking found in sess.nwb"]) := by
  constructor
  · show writeBlocks _ _ _ _ = _
    rw [show dfNameList false = ["rois", "daq", "body_video_tracking", "face_video_tracking",
          "eye_video_tracking", "pupil_tracking"] from rfl]
    rw [writeBlocks_cons_some sessionMissingBody "sess.nwb" "rois" _ _
        [("a", PdCol.nums [some 1])] [("a", statRow [some 1])] rfl rfl]
    rw [writeBlocks_cons_some sessionMissingBody "sess.nwb" "daq" _ _
        [("reward", PdCol.bools [false, true]), ("r", PdCol.nums [some 0, some 2])]
        [("r", statRow [some 0, some 2])] rfl rfl]
    exact writeBlocks_cons_none sessionMissingBody "sess.nwb" "body_video_tracking" _ _ rfl
  · rfl

theorem collectSummaries_eq_filterMap (dfName : String) :
    ∀ (sessions : List Session) (summarys : List Summary),
      collectSummaries sessions dfName = Except.ok summarys →
      summarys = sessions.filterMap (fun s =>
        match getattrS s dfName with
        | some (some tab) => (summarizeTable tab).toOption
        | _ => none) := by
  intro sessions
  induction sessions with
  | nil =>
      intro summarys h
      simp [collectSummaries] at h
      simp [← h]
  | cons s rest ih =>
      intro summarys h
      cases hg : getattrS s dfName with
      | none => simp [collectSummaries, statSummaryR, hg] at h
      | some ot =>
          cases ot with
          | none =>
              simp only [collectSummaries, statSummaryR, hg] at h
              cases hcr : collectSummaries rest dfName with
              | error e => rw [hcr] at h; cases h
              | ok tail =>
                  rw [hcr] at h
                  simp only [Except.ok.injEq] at h
                  subst h
                  simp [List.filterMap_cons, hg]
                  exact ih tail hcr
          | some tab =>
              cases hsm : summarizeTable tab with
              | error e => simp [collectSummaries, statSummaryR, hg, hsm] at h
              | ok sm =>
                  simp only [collectSummaries, statSummaryR, hg, hsm] at h
                  cases hcr : collectSummaries rest dfName with
                  | error e => rw [hcr] at h; cases h
                  | ok tail =>
                      rw [hcr] at h
                      simp only [Except.ok.injEq] at h
                      subst h
                      simp [List.filterMap_cons, hg, hsm, Except.toOption]
                      exact ih tail hcr

/-- C2 (counterexample): with three sessions of which the middle one lacks the
`daq` field, the code plots the surviving sessions at x positions `[1, 2]`,
while positions preserving the original session index would be `[1, 3]`
(1-based, as the code's `enumerate(..., start=1)` counts) or `[0, 2]`
(0-based).  The positions are renumbered over the surviving sessions, not
preserved. -/
theorem C2_counterexample :
    plottedPositions [sessionWithDaq, sessionEmpty, sessionWithDaq] "daq" = Except.ok [1, 2] ∧
    specPositionsFrom 1 [sessionWithDaq, sessionEmpty, sessionWithDaq] "daq" = [1, 3] ∧
    specPositionsFrom 0 [sessionWithDaq, sessionEmpty, sessionWithDaq] "daq" = [0, 2] ∧
    ([1, 2] : List Nat) ≠ [1, 3] ∧ ([1, 2] : List Nat) ≠ [0, 2] := by
  refine ⟨rfl, rfl, rfl, by decide, by decide⟩

/-- C2 (amended): in `plot_stats_across_sessions`, for a non-ROI field,
sessions whose summary is `None` are skipped, and the surviving sessions are
plotted at the consecutive x positions `1, 2, ..., m` in their original order
(`m` the number of surviving sessions); the original session indices are not
preserved when a skipped session precedes a surviving one. -/
theorem C2_positions_renumbered (sessions : List Session) (dfName : String)
    (summarys : List Summary)
    (h : collectSummaries sessions dfName = Except.ok summarys) :
    plottedPositions sessions dfName = Except.ok (List.range' 1 summarys.length) ∧
    summarys = sessions.filterMap (fun s =>
      match getattrS s dfName with
      | some (some tab) => (summarizeTable tab).toOption
      | _ => none) := by
  constructor
  · simp [plottedPositions, h, nonRoiRowIdx, enumFrom_map_fst]
  · exact collectSummaries_eq_filterMap dfName sessions summarys h

/-- C2 witness: two sessions, the second lacking `daq`; the one surviving
session is plotted at position 1. -/
theorem C2_positions_renumbered_witness :
    plottedPositions [sessionWithDaq, sessionEmpty] "daq" =
      Except.ok (List.range' 1 ([[("c", statRow [some 1])]] : List Summary).length) :=
  (C2_positions_renumbered [sessionWithDaq, sessionEmpty] "daq"
    [[("c", statRow [some 1])]] rfl).1

theorem C8_read_video_tracking (c : NWBContainer) (view : String) (downsampled : Bool) :
    (∀ parent, moduleFor c downsampled = some parent →
      (view = "body" ∨ view = "face" ∨ view = "eye") →
      alookup (view ++ "_video_keypoints") parent.ifaces = none →
      read_video_tracking c view downsampled = Except.ok none) ∧
    (∀ parent, moduleFor c downsampled = some parent →
      alookup "pupil_tracking" parent.ifaces = none →
      read_video_tracking c "pupil" downsampled = Except.ok none) ∧
    (¬(view = "body" ∨ view = "face" ∨ view = "eye" ∨ view = "pupil") →
      read_video_tracking c view downsampled = Except.error PyErr.valueError) := by
  refine ⟨?_, ?_, ?_⟩
  · intro parent hm hv hl
    simp only [read_video_tracking, if_pos hv, hm, hl]
  · intro parent hm hl
    have hno : ¬(("pupil" : String) = "body" ∨ ("pupil" : String) = "face" ∨
        ("pupil" : String) = "eye") := by decide
    simp only [read_video_tracking, if_neg hno, hm, hl]
    simp
  · intro hv
    push_neg at hv
    obtain ⟨h1, h2, h3, h4⟩ := hv
    have hA : ¬(view = "body" ∨ view = "face" ∨ view = "eye") := by
      intro h
      rcases h with h | h | h
      · exact h1 h
      · exact h2 h
      · exact h3 h
    simp only [read_video_tracking, if_neg hA, if_neg h4]

/-- C8 witness: a container whose modules are present but hold no data
interfaces; the keypoint and pupil views yield `None`, an unknown view name
raises `ValueError`. -/
theorem C8_read_video_tracking_witness :
    read_video_tracking containerEmptyMod "body" true = Except.ok none ∧
    read_video_tracking containerEmptyMod "pupil" true = Except.ok none ∧
    read_video_tracking containerEmptyMod "nose" true = Except.error PyErr.valueError := by
  refine ⟨?_, ?_, ?_⟩
  · exact (C8_read_video_tracking containerEmptyMod "body" true).1 moduleEmpty rfl
      (by decide) rfl
  · exact (C8_read_video_tracking containerEmptyMod "pupil" true).2.1 moduleEmpty rfl rfl
  · exact (C8_read_video_tracking containerEmptyMod "nose" true).2.2 (by decide)

theorem except_bind_ok {ε α β : Type} (x : Except ε α) (f : α → Except ε β) (b : β)
    (h : x >>= f = Except.ok b) : ∃ a, x = Except.ok a ∧ f a = Except.ok b := by
  cases x with
  | error e => simp [Bind.bind, Except.bind] at h
  | ok a => exact ⟨a, rfl, by simpa [Bind.bind, Except.bind] using h⟩

theorem load_body_ok_dff (c : NWBContainer) (downsampled isResting isSensory : Bool)
    (data : List (String × FieldValue))
    (h : load_body c downsampled isResting isSensory = Except.ok data) :
    ∃ rd, read_roi_dFF c = Except.ok rd := by
  unfold load_body at h
  obtain ⟨md, hmd, h⟩ := except_bind_ok _ _ _ h
  obtain ⟨tbv, htb, h⟩ := except_bind_ok _ _ _ h
  obtain ⟨d1, hd1, h⟩ := except_bind_ok _ _ _ h
  obtain ⟨d2, hd2, h⟩ := except_bind_ok _ _ _ h
  obtain ⟨rd, hrd, h⟩ := except_bind_ok _ _ _ h
  exact ⟨rd, hrd⟩

/-- C5: for a container missing the required `ophys`/`DfOverF` roi
fluorescence product, `load_from_file` raises (no session record of any shape
is returned) and the container handle is closed on that exit path as on every
other. -/
theorem C5_load_missing_dff (c : NWBContainer) (downsampled isResting isSensory : Bool)
    (h : c.ophysDff = none) :
    (∃ e, (load_from_file c downsampled isResting isSensory).1 = Except.error e) ∧
    (load_from_file c downsampled isResting isSensory).2 = true := by
  cases hb : load_body c downsampled isResting isSensory with
  | error e =>
      exact ⟨⟨e, by simp [load_from_file, hb]⟩, by simp [load_from_file, hb]⟩
  | ok data =>
      obtain ⟨rd, hrd⟩ := load_body_ok_dff c downsampled isResting isSensory data hb
      simp [read_roi_dFF, h] at hrd

/-- C5 witness: a concrete container without the roi product. -/
theorem C5_load_missing_dff_witness :
    (∃ e, (load_from_file containerEmptyMod true false false).1 = Except.error e) ∧
    (load_from_file containerEmptyMod true false false).2 = true :=
  C5_load_missing_dff containerEmptyMod true false false rfl

/-- C10: calling `load_from_file` with both `isResting` and `isSensory` set
always fails: either one of the reads fails, or the `isResting` branch is
taken for shape selection and `NWBData_resting(**data)` raises `TypeError`
because the acquisition, video-tracking and pupil fields were skipped under
`isSensory`; the handle is closed either way and no record is returned. -/
theorem C10_both_flags (c : NWBContainer) (downsampled : Bool) :
    ((∃ e, (load_from_file c downsampled true true).1 = Except.error e) ∧
      (load_from_file c downsampled true true).2 = true) ∧
    (∀ data, load_body c downsampled true true = Except.ok data →
      (load_from_file c downsampled true true).1 = Except.error PyErr.typeError) := by
  have key : ∀ data, load_body c downsampled true true = Except.ok data →
      (load_from_file c downsampled true true).1 = Except.error PyErr.typeError := by
    intro data h
    cases hmd : read_metadata c with
    | error e => simp [load_body, hmd, Bind.bind, Except.bind] at h
    | ok md =>
        cases htb : read_timebases c downsampled with
        | error e => simp [load_body, hmd, htb, Bind.bind, Except.bind] at h
        | ok tbv =>
            cases hrd : read_roi_dFF c with
            | error e =>
                simp [load_body, loadTrialsPart, loadAcqPart, hmd, htb, hrd, Bind.bind,
                  Except.bind, pure, Except.pure] at h
            | ok rd =>
                have hb : load_body c downsampled true true = Except.ok
                    [("metadata", FieldValue.meta md), ("timebase", FieldValue.tb tbv),
                     ("rois", FieldValue.roiTable rd.1),
                     ("roi_description", FieldValue.roiDescs rd.2)] := by
                  simp [load_body, loadTrialsPart, loadAcqPart, hmd, htb, hrd, Bind.bind,
                    Except.bind, pure, Except.pure]
                simp [load_from_file, hb, mkResting, restingFields, alookup, Except.map]
  refine ⟨⟨?_, ?_⟩, key⟩
  · cases hb : load_body c downsampled true true with
    | error e => exact ⟨e, by simp [load_from_file, hb]⟩
    | ok data => exact ⟨PyErr.typeError, key data hb⟩
  · cases hb : load_body c downsampled true true <;> simp [load_from_file, hb]

/-- C10 witness: a concrete container on which every read performed under the
two flags succeeds; the resting-shape construction then raises `TypeError`. -/
theorem C10_both_flags_witness :
    (load_from_file containerForLoad true true true).1 = Except.error PyErr.typeError :=
  (C10_both_flags containerForLoad true).2
    [("metadata", FieldValue.meta metaEx), ("timebase", FieldValue.tb (TimebaseVal.arr [0])),
     ("rois", FieldValue.roiTable [("roi1", PdCol.nums [some 1, some 2])]),
     ("roi_description", FieldValue.roiDescs [("roi1", "desc1")])]
    rfl

theorem alookup_map_val {α β : Type} (k : String) (f : α → β) (d : List (String × α)) :
    alookup k (d.map (fun p => (p.1, f p.2))) = (alookup k d).map f := by
  induction d with
  | nil => rfl
  | cons p rest ih => by_cases h : p.1 = k <;> simp [alookup, h, ih]


theorem alookup_updateVal_self {α : Type} (k : String) (v : α) (d : List (String × α)) :
    alookup k (updateVal d k v) = (alookup k d).map (fun _ => v) := by
  induction d with
  | nil => rfl
  | cons p rest ih =>
      simp only [updateVal, List.map_cons, beq_iff_eq] at ih ⊢
      by_cases h : p.1 = k
      · simp [alookup, h]
      · simp [alookup, h, ih]

theorem alookup_updateVal_other {α : Type} (k q : String) (v : α) (d : List (String × α))
    (hne : q ≠ k) : alookup q (updateVal d k v) = alookup q d := by
  induction d with
  | nil => rfl
  | cons p rest ih =>
      simp only [updateVal, List.map_cons, beq_iff_eq] at ih ⊢
      by_cases h : p.1 = k
      · have hkq : ¬k = q := fun hq => hne hq.symm
        simp [alookup, h, hkq, ih]
      · simp [alookup, h, ih]

theorem coerceAcq_spec (d : List (String × ColData)) (rwd slv tnv stv : List Int)
    (h1 : alookup "reward" d = some (ColData.ints rwd))
    (h2 : alookup "state_lever" d = some (ColData.ints slv))
    (h3 : alookup "tone" d = some (ColData.ints tnv))
    (h4 : alookup "state_task" d = some (ColData.ints stv)) :
    ∃ result, coerceAcq d = Except.ok result ∧
      alookup "reward" result = some (ColData.bools (rwd.map (fun x => decide (0 < x)))) ∧
      alookup "state_lever" result = some (ColData.bools (slv.map (fun x => decide (0 < x)))) ∧
      alookup "tone" result = some (ColData.bools (tnv.map (fun x => decide (0 < x)))) ∧
      alookup "state_task" result = some (ColData.ints (stv.map toInt16)) := by
  refine ⟨updateVal (updateVal (updateVal (updateVal d "reward"
      (ColData.bools (rwd.map (fun x => decide (0 < x)))))
      "state_lever" (ColData.bools (slv.map (fun x => decide (0 < x)))))
      "tone" (ColData.bools (tnv.map (fun x => decide (0 < x)))))
      "state_task" (ColData.ints (stv.map toInt16)), ?_, ?_, ?_, ?_, ?_⟩
  · simp [coerceAcq, coerceBoolCol, coerceInt16Col, Bind.bind, Except.bind,
      alookup_updateVal_other, alookup_updateVal_self, h1, h2, h3, h4]
  · simp [alookup_updateVal_other, alookup_updateVal_self, h1]
  · simp [alookup_updateVal_other, alookup_updateVal_self, h2]
  · simp [alookup_updateVal_other, alookup_updateVal_self, h3]
  · simp [alookup_updateVal_other, alookup_updateVal_self, h4]

/-- C4: on a non-sensory session, `read_acquisition` coerces the `reward`,
`state_lever` and `tone` columns to booleans that are true exactly for source
values `> 0`, and casts `state_task` to a 16-bit signed integer; on a sensory
session no coercion is applied and the collected integer columns are returned
unchanged. -/
theorem C4_acquisition_coercion (c : NWBContainer) (downsampled : Bool) (m : ProcModule)
    (data0 : List (String × List Int)) (rwd slv tnv stv : List Int)
    (hpm : acqParent c downsampled = Except.ok m)
    (hbd : buildAcqData m = Except.ok data0)
    (hrw : alookup "reward" data0 = some rwd)
    (hsl : alookup "state_lever" data0 = some slv)
    (htn : alookup "tone" data0 = some tnv)
    (hst : alookup "state_task" data0 = some stv) :
    (∃ result, read_acquisition c downsampled false = Except.ok result ∧
       alookup "reward" result = some (ColData.bools (rwd.map (fun x => decide (0 < x)))) ∧
       alookup "state_lever" result = some (ColData.bools (slv.map (fun x => decide (0 < x)))) ∧
       alookup "tone" result = some (ColData.bools (tnv.map (fun x => decide (0 < x)))) ∧
       alookup "state_task" result = some (ColData.ints (stv.map toInt16))) ∧
    read_acquisition c downsampled true =
      Except.ok (data0.map (fun p => (p.1, ColData.ints p.2))) := by
  have lr : alookup "reward" (data0.map (fun p => (p.1, ColData.ints p.2))) =
      some (ColData.ints rwd) := by rw [alookup_map_val, hrw]; rfl
  have lsl : alookup "state_lever" (data0.map (fun p => (p.1, ColData.ints p.2))) =
      some (ColData.ints slv) := by rw [alookup_map_val, hsl]; rfl
  have ltn : alookup "tone" (data0.map (fun p => (p.1, ColData.ints p.2))) =
      some (ColData.ints tnv) := by rw [alookup_map_val, htn]; rfl
  have lst : alookup "state_task" (data0.map (fun p => (p.1, ColData.ints p.2))) =
      some (ColData.ints stv) := by rw [alookup_map_val, hst]; rfl
  obtain ⟨result, hres, hq1, hq2, hq3, hq4⟩ :=
    coerceAcq_spec (data0.map (fun p => (p.1, ColData.ints p.2))) rwd slv tnv stv lr lsl ltn lst
  constructor
  · refine ⟨result, ?_, hq1, hq2, hq3, hq4⟩
    simp [read_acquisition, hpm, hbd, hres, Bind.bind, Except.bind]
  · simp [read_acquisition, hpm, hbd, Bind.bind, Except.bind, pure, Except.pure]

/-- C4 witness: a concrete `downsampled` module with five channels.  The three
named columns become booleans (`> 0`), `state_task` wraps `70000` to `4464`
under the 16-bit cast, and with `isSensory` the integer columns are returned
untouched. -/
theorem C4_acquisition_coercion_witness :
    (∃ result, read_acquisition containerAcq true false = Except.ok result ∧
       alookup "reward" result =
         some (ColData.bools (([0, 2] : List Int).map (fun x => decide (0 < x)))) ∧
       alookup "state_lever" result =
         some (ColData.bools (([1, 0] : List Int).map (fun x => decide (0 < x)))) ∧
       alookup "tone" result =
         some (ColData.bools (([-1, 3] : List Int).map (fun x => decide (0 < x)))) ∧
       alookup "state_task" result =
         some (ColData.ints (([1, 70000] : List Int).map toInt16))) ∧
    read_acquisition containerAcq true true =
      Except.ok (([("reward", [0, 2]), ("state_lever", [1, 0]), ("tone", [-1, 3]),
        ("state_task", [1, 70000]), ("running_speed", [5, 5])] :
          List (String × List Int)).map (fun p => (p.1, ColData.ints p.2))) :=
  C4_acquisition_coercion containerAcq true acqModuleEx
    [("reward", [0, 2]), ("state_lever", [1, 0]), ("tone", [-1, 3]),
     ("state_task", [1, 70000]), ("running_speed", [5, 5])]
    [0, 2] [1, 0] [-1, 3] [1, 70000] rfl rfl rfl rfl rfl rfl

/-- C7: `nwb_file_indexer` maps `"mouse01_2021-01-05_task-day3.ext"` to
`("mouse01", "2021-01-05", 0, 3)` and
`"mouse01_2021-01-05_resting-state-day1.ext"` to
`("mouse01", "2021-01-05", 1, 1)`, and raises `ValueError` on every file name
whose stem does not match the convention. -/
theorem C7_nwb_file_indexer :
    nwb_file_indexer "mouse01_2021-01-05_task-day3.ext" =
      Except.ok ("mouse01", "2021-01-05", 0, 3) ∧
    nwb_file_indexer "mouse01_2021-01-05_resting-state-day1.ext" =
      Except.ok ("mouse01", "2021-01-05", 1, 1) ∧
    ∀ s, pyMatch (pyStem s).toList = none →
      nwb_file_indexer s = Except.error PyErr.valueError := by
  refine ⟨rfl, rfl, ?_⟩
  intro s h
  have h2 : pyMatch (pyStem s).data = none := h
  simp [nwb_file_indexer, h2]

/-- C7 witness: a concrete non-matching name raises `ValueError`. -/
theorem C7_nwb_file_indexer_witness :
    nwb_file_indexer "badname.nwb" = Except.error PyErr.valueError :=
  C7_nwb_file_indexer.2.2 "badname.nwb" (by decide)

/-- C1 witness: the amended characterization applied at the concrete name
`'Running-speed_ds'`. -/
theorem C1_amended_sanitize_witness :
    sanitizeChars "Running-speed_ds".toList =
      removeDs (("Running-speed_ds".toList.map Char.toLower).filterMap sanitizeStep) :=
  C1_amended_sanitize.1 "Running-speed_ds".toList
